import Mathlib

set_option linter.unusedVariables false

/-!
Verification of the automation platform's Job Scheduling & Execution Engine
against its natural-language specification.

The definitions below are a shallow embedding of the Python source:
  - storage/models.py   (Job, JobExecution, JobStatus rows)
  - core/executor.py    (JobExecutor.execute_job and the script runner)
  - core/scheduler.py   (JobScheduler.initialize / add_job / load_jobs_from_database)
  - config/settings.py  (Settings defaults)
  - dashboard/api/jobs.py (the execute-now endpoint)

The database is modelled as an explicit in-memory store threaded through the
functions; wall-clock readings (datetime.utcnow) are passed in as abstract
tick parameters; the OS process layer is modelled by an outcome parameter
(normal exit / timeout / raised exception), matching the branches of the
Python try/except blocks.
-/

/-- Execution lifecycle states, from `storage/models.py` (`JobStatus`). -/
inductive JobStatus where
  | pending
  | running
  | success
  | failed
  | cancelled
  deriving DecidableEq, Repr

/-- A row of the `jobs` table, from `storage/models.py` (`Job`).  Only the
columns the engine reads are modelled. -/
structure Job where
  id : Nat
  name : String
  script_path : String
  cron_expression : Option String
  enabled : Bool
  timeout_seconds : Nat
  deriving DecidableEq, Repr

/-- A row of the `job_executions` table, from `storage/models.py`
(`JobExecution`).  Timestamps are abstract ticks (`Nat`). -/
structure JobExecution where
  id : Nat
  job_id : Nat
  status : JobStatus
  started_at : Option Nat
  completed_at : Option Nat
  duration_seconds : Option Int
  stdout : Option String
  stderr : Option String
  exit_code : Option Int
  error_message : Option String
  hostname : Option String
  platform : Option String
  deriving DecidableEq, Repr

/-- The external store: `jobs` and `job_executions` tables plus the
autoincrement counter for execution primary keys. -/
structure Store where
  jobs : List Job
  executions : List JobExecution
  nextExecId : Nat
  deriving DecidableEq, Repr

/-- The executor object's fields, from `core/executor.py`
(`JobExecutor.__init__`): `socket.gethostname()` and
`platform.system().lower()` are environment reads, passed in here. -/
structure JobExecutor where
  hostname : String
  platform : String
  deriving DecidableEq, Repr

/-- The result dictionary built by every branch of the script runner in
`core/executor.py`: keys `success`, `exit_code`, `stdout`, `stderr`,
`error`. -/
structure ScriptResult where
  success : Bool
  exit_code : Int
  stdout : String
  stderr : String
  error : Option String
  deriving DecidableEq, Repr

/-- A Python value, used to render the runner's result dictionary exactly as
the source's dict literals build it. -/
inductive PyValue where
  | bool (b : Bool)
  | int (i : Int)
  | str (s : String)
  | none
  deriving DecidableEq, Repr

/-- The dictionary the runner actually returns, key by key in the order the
source's dict literals list them (`core/executor.py` lines 212-218 and the
error branches). -/
def ScriptResult.toDict (r : ScriptResult) : List (String × PyValue) :=
  [("success", PyValue.bool r.success),
   ("exit_code", PyValue.int r.exit_code),
   ("stdout", PyValue.str r.stdout),
   ("stderr", PyValue.str r.stderr),
   ("error", match r.error with
             | Option.none => PyValue.none
             | Option.some s => PyValue.str s)]

/-- Outcome of one `subprocess.run` call: a normal exit with captured
streams, a `subprocess.TimeoutExpired`, or any other raised exception with
its text (`str(e)`). -/
inductive ProcOutcome where
  | exited (returncode : Int) (stdout : String) (stderr : String)
  | timedOut
  | raised (msg : String)
  deriving DecidableEq, Repr

/-- The timeout message the runner builds: `f'Timeout after {timeout}s'`
(`core/executor.py` line 225). -/
def timeout_message (timeout : Nat) : String :=
  "Timeout after " ++ toString timeout ++ "s"

/-- `JobExecutor._execute_python_script` (`core/executor.py` lines 181-235):
wraps the `subprocess.run` outcome into the result dictionary.  The spawn
itself is the `outcome` parameter. -/
def execute_python_script (outcome : ProcOutcome) (timeout : Nat) : ScriptResult :=
  match outcome with
  | ProcOutcome.exited returncode out err =>
      { success := returncode == 0
        exit_code := returncode
        stdout := out
        stderr := err
        error := if returncode == 0 then Option.none else Option.some err }
  | ProcOutcome.timedOut =>
      { success := false, exit_code := -1, stdout := ""
        stderr := timeout_message timeout
        error := Option.some (timeout_message timeout) }
  | ProcOutcome.raised msg =>
      { success := false, exit_code := -1, stdout := ""
        stderr := msg, error := Option.some msg }

/-- `JobExecutor._execute_shell_script` (`core/executor.py` lines 237-287):
identical result construction to the Python-script branch (the `os.chmod`
and differing argv only affect which outcome occurs). -/
def execute_shell_script (outcome : ProcOutcome) (timeout : Nat) : ScriptResult :=
  match outcome with
  | ProcOutcome.exited returncode out err =>
      { success := returncode == 0
        exit_code := returncode
        stdout := out
        stderr := err
        error := if returncode == 0 then Option.none else Option.some err }
  | ProcOutcome.timedOut =>
      { success := false, exit_code := -1, stdout := ""
        stderr := timeout_message timeout
        error := Option.some (timeout_message timeout) }
  | ProcOutcome.raised msg =>
      { success := false, exit_code := -1, stdout := ""
        stderr := msg, error := Option.some msg }

/-- `JobExecutor._execute_windows_script` (`core/executor.py` lines
289-346): again the same result construction. -/
def execute_windows_script (outcome : ProcOutcome) (timeout : Nat) : ScriptResult :=
  match outcome with
  | ProcOutcome.exited returncode out err =>
      { success := returncode == 0
        exit_code := returncode
        stdout := out
        stderr := err
        error := if returncode == 0 then Option.none else Option.some err }
  | ProcOutcome.timedOut =>
      { success := false, exit_code := -1, stdout := ""
        stderr := timeout_message timeout
        error := Option.some (timeout_message timeout) }
  | ProcOutcome.raised msg =>
      { success := false, exit_code := -1, stdout := ""
        stderr := msg, error := Option.some msg }

/-- Re-fetch the execution row by its primary key and mutate it, as the
source's `session.query(JobExecution).filter(JobExecution.id ==
execution_id).first()` followed by attribute assignment and commit. -/
def updateExecution (st : Store) (execId : Nat) (f : JobExecution → JobExecution) : Store :=
  { st with executions := st.executions.map (fun e => if e.id == execId then f e else e) }

/-- `JobExecutor.execute_job` (`core/executor.py` lines 36-117).

`runner` stands for the body of the `try:` block up to and including
`self._execute_script(...)`: `Except.ok r` is a normal return of the result
dictionary `r`, `Except.error msg` is any exception raised there (caught by
the `except Exception as e:` clause with `str(e) = msg`).  `t0` and `t1` are
the two `datetime.utcnow()` readings. -/
def execute_job (ex : JobExecutor) (st : Store) (job_id : Nat)
    (runner : String → Nat → Except String ScriptResult) (t0 t1 : Nat) :
    Bool × Store :=
  match st.jobs.find? (fun j => j.id == job_id) with
  | Option.none => (false, st)
  | Option.some job =>
    let execution : JobExecution :=
      { id := st.nextExecId, job_id := job_id, status := JobStatus.running,
        started_at := Option.some t0, completed_at := Option.none,
        duration_seconds := Option.none, stdout := Option.none,
        stderr := Option.none, exit_code := Option.none,
        error_message := Option.none,
        hostname := Option.some ex.hostname,
        platform := Option.some ex.platform }
    let st1 : Store :=
      { st with executions := st.executions ++ [execution],
                nextExecId := st.nextExecId + 1 }
    match runner job.script_path job.timeout_seconds with
    | Except.ok result =>
        let st2 := updateExecution st1 execution.id (fun e =>
          let e1 := { e with completed_at := Option.some t1,
                             duration_seconds := Option.some ((t1 : Int) - (t0 : Int)),
                             stdout := Option.some result.stdout,
                             stderr := Option.some result.stderr,
                             exit_code := Option.some result.exit_code }
          if result.success then { e1 with status := JobStatus.success }
          else { e1 with status := JobStatus.failed, error_message := result.error })
        (result.success, st2)
    | Except.error msg =>
        let st2 := updateExecution st1 execution.id (fun e =>
          { e with completed_at := Option.some t1,
                   status := JobStatus.failed,
                   error_message := Option.some msg })
        (false, st2)

/-- Default value of `Settings.max_concurrent_jobs`
(`config/settings.py` line 40). -/
def settings_max_concurrent_jobs : Nat := 10

/-- The `job_defaults` dictionary of `BackgroundScheduler`. -/
structure SchedulerJobDefaults where
  coalesce : Bool
  max_instances : Nat
  misfire_grace_time : Nat
  deriving DecidableEq, Repr

/-- `job_defaults` passed to `BackgroundScheduler` in
`JobScheduler.initialize` (`core/scheduler.py` lines 45-52). -/
def initialize_job_defaults : SchedulerJobDefaults :=
  { coalesce := true,
    max_instances := settings_max_concurrent_jobs,
    misfire_grace_time := 60 }

/-- Modelled from the spec: the per-job concurrency gate.  The check itself
lives in the APScheduler library (not under src/); the spec says the loop
"checks ... a per-job cap on concurrently running instances of that same
job" and skips the fire "if either cap is exhausted", i.e. a new instance is
admitted exactly when the number already running is below the cap.  The cap
value is the source-configured `max_instances` above. -/
def can_start_instance (max_instances running : Nat) : Bool :=
  running < max_instances

/-- Number of `Running` execution rows for one job in the store. -/
def runningCount (st : Store) (job_id : Nat) : Nat :=
  (st.executions.filter
    (fun e => e.job_id == job_id && e.status == JobStatus.running)).length

/-- A resolved schedule, one of the three APScheduler trigger kinds built in
`JobScheduler.add_job`. -/
inductive Trigger where
  | cron (expr : String)
  | interval (seconds : Nat)
  | date (run_date : Int)
  deriving DecidableEq, Repr

/-- Split a character list at every occurrence of `sep`, keeping empty
pieces (the semantics of Python `str.split(sep)`). -/
def splitChars (sep : Char) : List Char → List (List Char)
  | [] => [[]]
  | c :: rest =>
    let r := splitChars sep rest
    if c == sep then [] :: r
    else (c :: r.headI) :: r.tail

/-- Modelled from the spec: `CronTrigger.from_crontab` (APScheduler library,
not under src/) — "standard 5-field cron"; "malformed cron text fails at
registration time".  The model checks the field count of the
whitespace-separated expression; per-field content validation is not
modelled. -/
def cron_from_crontab (expr : String) : Except String Trigger :=
  let fields := (splitChars ' ' expr.data).filter (fun f => !(f.isEmpty))
  if fields.length == 5 then Except.ok (Trigger.cron expr)
  else Except.error
    ("Wrong number of fields; got " ++ toString fields.length ++ ", expected 5")

/-- Python truthiness of an `Optional[str]`: `None` and `''` are falsy. -/
def py_truthy_str : Option String → Bool
  | Option.none => false
  | Option.some s => !(s == "")

/-- Python truthiness of an `Optional[int]`: `None` and `0` are falsy. -/
def py_truthy_nat : Option Nat → Bool
  | Option.none => false
  | Option.some n => !(n == 0)

/-- The trigger-determination block of `JobScheduler.add_job`
(`core/scheduler.py` lines 129-150): `if cron_expression: ... elif
interval_seconds: ... elif run_date: ... else: raise ValueError(...)`.
A `run_date` datetime is always truthy when present. -/
def select_trigger (cron_expression : Option String)
    (interval_seconds : Option Nat) (run_date : Option Int) :
    Except String Trigger :=
  if py_truthy_str cron_expression then
    cron_from_crontab (cron_expression.getD "")
  else if py_truthy_nat interval_seconds then
    Except.ok (Trigger.interval (interval_seconds.getD 0))
  else if run_date.isSome then
    Except.ok (Trigger.date (run_date.getD 0))
  else
    Except.error "Must provide cron_expression, interval_seconds, or run_date"

/-- Modelled from the spec: the APScheduler job registry's duplicate-id
handling (library code, not under src/) — the spec's Scheduler Core
contract: "rejects duplicate jobId unless `replace_existing` is
requested". -/
def apscheduler_add_job (registry : List (String × Trigger)) (job_id : String)
    (trigger : Trigger) (replace_existing : Bool) :
    Except String (List (String × Trigger)) :=
  if (registry.lookup job_id).isSome then
    if replace_existing then
      Except.ok (registry.map (fun p => if p.1 == job_id then (job_id, trigger) else p))
    else
      Except.error "ConflictingIdError"
  else
    Except.ok (registry ++ [(job_id, trigger)])

/-- `JobScheduler.add_job` (`core/scheduler.py` lines 100-164): determines
the trigger, then registers it with `replace_existing=True` hard-coded at
line 159 (callers cannot pass their own value: it is not a parameter). -/
def add_job (registry : List (String × Trigger)) (job_id : String)
    (cron_expression : Option String) (interval_seconds : Option Nat)
    (run_date : Option Int) : Except String (List (String × Trigger)) :=
  match select_trigger cron_expression interval_seconds run_date with
  | Except.error e => Except.error e
  | Except.ok trigger => apscheduler_add_job registry job_id trigger true

/-- APScheduler id for a database job, `f"job_{job.id}"`
(`core/scheduler.py` line 263). -/
def job_key (j : Job) : String := "job_" ++ toString j.id

/-- Scheduler-side state mutated by the loading loop: the APScheduler
registry and `self._job_map`. -/
structure LoadState where
  registry : List (String × Trigger)
  job_map : List (String × Nat)
  deriving DecidableEq, Repr

/-- One iteration of the loading loop in
`JobScheduler.load_jobs_from_database` (`core/scheduler.py` lines 254-271):
`add_job` is called with only `cron_expression=job.cron_expression`; the
surrounding `try/except` logs and skips the job on any exception, leaving
the state unchanged. -/
def load_step (st : LoadState) (j : Job) : LoadState :=
  match add_job st.registry (job_key j) j.cron_expression Option.none Option.none with
  | Except.ok reg => { registry := reg, job_map := st.job_map ++ [(job_key j, j.id)] }
  | Except.error _ => st

/-- `JobScheduler.load_jobs_from_database` (`core/scheduler.py` lines
240-271): queries the enabled jobs and runs the per-job loop over them. -/
def load_jobs_from_database (registry : List (String × Trigger))
    (jobs : List Job) : LoadState :=
  (jobs.filter (fun j => j.enabled)).foldl load_step
    { registry := registry, job_map := [] }

/-- A POSIX-style path: an absolute flag and its components.  This is the
structure `pathlib.Path` stores. -/
structure PurePath where
  absolute : Bool
  parts : List String
  deriving DecidableEq, Repr

/-- The `pathlib` `/` operator: an absolute right operand replaces the left
entirely; otherwise the components concatenate.  No `..` normalisation is
performed by the join. -/
def PurePath.join (base p : PurePath) : PurePath :=
  if p.absolute then p
  else { absolute := base.absolute, parts := base.parts ++ p.parts }

/-- Process `.` and `..` components left to right, as the OS does when a
textual path is followed (e.g. by `Path.exists`). -/
def resolveParts (acc : List String) : List String → List String
  | [] => acc
  | c :: rest =>
    if c == "." then resolveParts acc rest
    else if c == ".." then resolveParts acc.dropLast rest
    else resolveParts (acc ++ [c]) rest

/-- Filesystem resolution of a path's `.` and `..` components. -/
def PurePath.resolve (p : PurePath) : PurePath :=
  { absolute := p.absolute, parts := resolveParts [] p.parts }

/-- Textual rendering of a path, for the messages that interpolate
`full_path`. -/
def PurePath.render (p : PurePath) : String :=
  (if p.absolute then "/" else "") ++ String.intercalate "/" p.parts

/-- `pathlib.PurePath.suffix` of a file name: the part from the last dot,
empty when there is no dot or the only dot is the leading one. -/
def pySuffix (name : String) : String :=
  let pieces := splitChars '.' name.data
  if pieces.length ≤ 1 then ""
  else if pieces.length == 2 && pieces.headI == [] then ""
  else "." ++ String.mk (pieces.getLast?.getD [])

/-- Which interpreter branch of the runner a spawn goes to. -/
inductive ScriptKind where
  | python
  | shell
  | windows
  deriving DecidableEq, Repr

/-- What `JobExecutor._execute_script` does with a request: either an
immediate error result (no process spawned) or a process spawn of the given
kind at the given full path. -/
inductive ExecDecision where
  | err (r : ScriptResult)
  | spawn (kind : ScriptKind) (full_path : PurePath) (timeout : Nat)
  deriving DecidableEq, Repr

/-- `JobExecutor._execute_script` (`core/executor.py` lines 119-179):
joins `settings.get_base_path()` with `script_path` (the local
`full_path`), refuses a non-existent resolved path, then dispatches on the
lower-cased file extension.  `fs` is the set of existing files (as resolved
absolute paths), `base` the configured base directory. -/
def script_full_path (base script_path : PurePath) : PurePath :=
  PurePath.join base script_path

/-- The local `extension = full_path.suffix.lower()` of
`JobExecutor._execute_script` (`core/executor.py` line 148). -/
def script_extension (base script_path : PurePath) : String :=
  String.mk
    ((pySuffix ((script_full_path base script_path).parts.getLast?.getD "")).data.map
      Char.toLower)

def execute_script (platform : String) (fs : List PurePath) (base : PurePath)
    (script_path : PurePath) (timeout : Nat) : ExecDecision :=
  if !(fs.contains (script_full_path base script_path).resolve) then
    ExecDecision.err
      { success := false, exit_code := -1, stdout := ""
        stderr := "Script not found: " ++ (script_full_path base script_path).render
        error := Option.some ("Script not found: " ++ (script_full_path base script_path).render) }
  else if script_extension base script_path == ".py" then
    ExecDecision.spawn ScriptKind.python (script_full_path base script_path) timeout
  else if script_extension base script_path == ".sh" || script_extension base script_path == ".bash" then
    if platform == "windows" then
      ExecDecision.err
        { success := false, exit_code := -1, stdout := ""
          stderr := "Shell scripts not supported on Windows"
          error := Option.some "Shell scripts not supported on Windows" }
    else
      ExecDecision.spawn ScriptKind.shell (script_full_path base script_path) timeout
  else if script_extension base script_path == ".ps1" || script_extension base script_path == ".bat" || script_extension base script_path == ".cmd" then
    if !(platform == "windows") then
      ExecDecision.err
        { success := false, exit_code := -1, stdout := ""
          stderr := "Windows scripts not supported on Linux"
          error := Option.some "Windows scripts not supported on Linux" }
    else
      ExecDecision.spawn ScriptKind.windows (script_full_path base script_path) timeout
  else
    ExecDecision.err
      { success := false, exit_code := -1, stdout := ""
        stderr := "Unsupported script type: " ++ script_extension base script_path
        error := Option.some ("Unsupported script type: " ++ script_extension base script_path) }

/-- Specification-side predicate, written from the spec's words: "script
path must resolve under the configured base directory (no traversal outside
it)" — the resolved full path starts with the resolved base directory. -/
def spec_resolves_under_base (base full : PurePath) : Bool :=
  (full.absolute == base.absolute) &&
    List.isPrefixOf (PurePath.resolve base).parts (PurePath.resolve full).parts

/-- `.get` on the runner's result dictionary for an integer-valued key,
`None` when the key is absent. -/
def pyGetInt (d : List (String × PyValue)) (k : String) : Option Int :=
  match d.lookup k with
  | Option.some (PyValue.int i) => Option.some i
  | _ => Option.none

/-- The execute-now endpoint `execute_job` in `dashboard/api/jobs.py`
(lines 300-361): 404 on an unknown id; otherwise it creates a `Running`
ledger row, invokes the script runner directly (no scheduler, no cap
check anywhere in the handler), then applies the terminal transition and
returns the row.  `result` is the dictionary the runner returned;
`duration_seconds` is set from `result.get("duration")`, a key the runner
dictionary does not contain. -/
def api_execute_job (st : Store) (job_id : Nat) (result : ScriptResult)
    (t0 t1 : Nat) : Except Nat (JobExecution × Store) :=
  match st.jobs.find? (fun j => j.id == job_id) with
  | Option.none => Except.error 404
  | Option.some job =>
    let execution : JobExecution :=
      { id := st.nextExecId, job_id := job.id, status := JobStatus.running,
        started_at := Option.some t0, completed_at := Option.none,
        duration_seconds := Option.none, stdout := Option.none,
        stderr := Option.none, exit_code := Option.none,
        error_message := Option.none, hostname := Option.none,
        platform := Option.none }
    let st1 : Store :=
      { st with executions := st.executions ++ [execution],
                nextExecId := st.nextExecId + 1 }
    let apply_result := fun (e : JobExecution) =>
      { e with
          status := if result.success then JobStatus.success else JobStatus.failed,
          completed_at := Option.some t1,
          duration_seconds := pyGetInt result.toDict "duration",
          stdout := Option.some result.stdout,
          stderr := Option.some result.stderr,
          exit_code := Option.some result.exit_code,
          error_message := result.error }
    let st2 := updateExecution st1 execution.id apply_result
    Except.ok (apply_result execution, st2)

/-- Updating the row with a fresh id touches nothing in a list that does not
contain that id. -/
theorem map_update_of_fresh (l : List JobExecution) (i : Nat)
    (f : JobExecution → JobExecution) (h : ∀ e ∈ l, e.id ≠ i) :
    l.map (fun e => if e.id == i then f e else e) = l := by
  induction l with
  | nil => rfl
  | cons a t ih =>
    have ha : (a.id == i) = false :=
      beq_eq_false_iff_ne.mpr (h a (by simp))
    have ht := ih (fun e he => h e (by simp [he]))
    simp only [List.map_cons, ha, Bool.false_eq_true, if_false, ht]

/-- A job used by concrete witnesses: id 1, a cron schedule, enabled. -/
def sampleJob : Job :=
  { id := 1, name := "nightly", script_path := "scripts/nightly.py",
    cron_expression := Option.some "0 0 * * *", enabled := true,
    timeout_seconds := 300 }

/-- A store holding `sampleJob` and no execution history. -/
def sampleStore : Store :=
  { jobs := [sampleJob], executions := [], nextExecId := 0 }

/-- C2: if the job exists, an exception raised while running the script is
caught by `execute_job`'s outermost `except` clause: the function returns
`false` normally (its type is `Bool × Store`; no exception propagates in the
model because the row just created is re-fetched by its fresh id), and the
execution row reaches the terminal state `Failed` with the exception text as
its error message and `completed_at` set. -/
theorem claim_C2 (ex : JobExecutor) (st : Store) (job_id : Nat) (msg : String)
    (t0 t1 : Nat) (job : Job)
    (hfind : st.jobs.find? (fun j => j.id == job_id) = Option.some job)
    (hfresh : ∀ e ∈ st.executions, e.id ≠ st.nextExecId) :
    execute_job ex st job_id (fun _ _ => Except.error msg) t0 t1 =
      (false,
       { st with
           executions := st.executions ++
             [{ id := st.nextExecId, job_id := job_id,
                status := JobStatus.failed,
                started_at := Option.some t0, completed_at := Option.some t1,
                duration_seconds := Option.none, stdout := Option.none,
                stderr := Option.none, exit_code := Option.none,
                error_message := Option.some msg,
                hostname := Option.some ex.hostname,
                platform := Option.some ex.platform }],
           nextExecId := st.nextExecId + 1 }) := by
  unfold execute_job
  rw [hfind]
  simp only [updateExecution, List.map_append]
  rw [map_update_of_fresh _ _ _ hfresh]
  simp

/-- Witness for C2 at a concrete store: a runner exception "boom" yields a
`Failed` row carrying "boom" and a normal `false` return. -/
theorem claim_C2_witness :
    execute_job { hostname := "h1", platform := "linux" } sampleStore 1
      (fun _ _ => Except.error "boom") 10 25 =
      (false,
       { jobs := [sampleJob],
         executions :=
           [{ id := 0, job_id := 1, status := JobStatus.failed,
              started_at := Option.some 10, completed_at := Option.some 25,
              duration_seconds := Option.none, stdout := Option.none,
              stderr := Option.none, exit_code := Option.none,
              error_message := Option.some "boom",
              hostname := Option.some "h1", platform := Option.some "linux" }],
         nextExecId := 1 }) :=
  claim_C2 { hostname := "h1", platform := "linux" } sampleStore 1 "boom" 10 25
    sampleJob (by decide) (by decide)

/-- C9: when no job row matches the id, `execute_job` returns `false` and
leaves the store unchanged; the result does not depend on the runner at all,
so no script is run. -/
theorem claim_C9 (ex : JobExecutor) (st : Store) (job_id : Nat)
    (h : st.jobs.find? (fun j => j.id == job_id) = Option.none) :
    ∀ (runner : String → Nat → Except String ScriptResult) (t0 t1 : Nat),
      execute_job ex st job_id runner t0 t1 = (false, st) := by
  intro runner t0 t1
  unfold execute_job
  rw [h]

/-- Witness for C9: job id 2 is absent from the sample store; the call
returns `false` with the store untouched. -/
theorem claim_C9_witness :
    execute_job { hostname := "h1", platform := "linux" } sampleStore 2
      (fun _ _ => Except.error "never consulted") 0 0 = (false, sampleStore) :=
  claim_C9 { hostname := "h1", platform := "linux" } sampleStore 2 (by decide)
    (fun _ _ => Except.error "never consulted") 0 0

/-- The result shape the spec's Process Runner contract requires of every
outcome: the dictionary has exactly the keys `success`, `exit_code`,
`stdout`, `stderr`, `error`, and `error` is null exactly on success. -/
def good_result_shape (r : ScriptResult) : Prop :=
  r.toDict.map Prod.fst = ["success", "exit_code", "stdout", "stderr", "error"] ∧
  (r.error = Option.none ↔ r.success = true)

/-- C6 counterexample: at timeout 5 the runner's error string is
"Timeout after 5s" (capital T), not the "timeout after 5s" the claim's
scenario states. -/
theorem claim_C6_counterexample :
    (execute_python_script ProcOutcome.timedOut 5).error =
      Option.some "Timeout after 5s" ∧
    ¬ ((execute_python_script ProcOutcome.timedOut 5).error =
      Option.some "timeout after 5s") := by
  constructor
  · rfl
  · decide

/-- C6 amended: on timeout the runner returns success `false`, exit code
`-1`, and the fixed string "Timeout after {N}s" in both `stderr` and
`error`; a normal exit instead reports the actual return code with `error`
equal to the captured stderr when non-zero; the two branches produce equal
results only if the captured stderr happens to equal the timeout text. -/
theorem claim_C6_amended :
    (∀ t : Nat, execute_python_script ProcOutcome.timedOut t =
       { success := false, exit_code := -1, stdout := "",
         stderr := timeout_message t,
         error := Option.some (timeout_message t) }) ∧
    (∀ (c : Int) (o e : String) (t : Nat),
       execute_python_script (ProcOutcome.exited c o e) t =
       { success := c == 0, exit_code := c, stdout := o, stderr := e,
         error := if c == 0 then Option.none else Option.some e }) ∧
    (∀ (c : Int) (o e : String) (t : Nat), ¬ (e = timeout_message t) →
       ¬ (execute_python_script (ProcOutcome.exited c o e) t =
          execute_python_script ProcOutcome.timedOut t)) := by
  refine ⟨fun t => rfl, fun c o e t => rfl, ?_⟩
  intro c o e t hne heq
  apply hne
  have := congrArg ScriptResult.stderr heq
  simpa [execute_python_script] using this

/-- Witness for C6 amended: at timeout 5 the record is spelled out with
"Timeout after 5s", and a clean exit with stderr "x" is a different
result. -/
theorem claim_C6_amended_witness :
    execute_python_script ProcOutcome.timedOut 5 =
      { success := false, exit_code := -1, stdout := "",
        stderr := "Timeout after 5s",
        error := Option.some "Timeout after 5s" } ∧
    ¬ (execute_python_script (ProcOutcome.exited 0 "" "x") 5 =
       execute_python_script ProcOutcome.timedOut 5) :=
  ⟨(claim_C6_amended.1 5).trans (by decide),
   claim_C6_amended.2.2 0 "" "x" 5 (by decide)⟩

/-- C7 counterexample: a successful run's result dictionary has the five
keys `success`, `exit_code`, `stdout`, `stderr`, `error` and no `duration`
key — the duration the claim requires is not part of the runner's result
(it is computed by the caller from the ledger row's timestamps). -/
theorem claim_C7_counterexample :
    ((execute_python_script (ProcOutcome.exited 0 "out" "") 5).toDict.map
      Prod.fst = ["success", "exit_code", "stdout", "stderr", "error"]) ∧
    ((execute_python_script (ProcOutcome.exited 0 "out" "") 5).toDict.lookup
      "duration" = Option.none) := by
  constructor
  · rfl
  · rfl

/-- Every immediate-error branch of the dispatcher builds a result of the
common shape with `success = false`. -/
theorem execute_script_err_shape (platform : String) (fs : List PurePath)
    (base script_path : PurePath) (t : Nat) :
    match execute_script platform fs base script_path t with
    | ExecDecision.err r => good_result_shape r ∧ r.success = false
    | ExecDecision.spawn _ _ _ => True := by
  unfold execute_script
  split
  · rename_i r heq
    repeat' split at heq
    all_goals first
      | (cases heq; simp [good_result_shape, ScriptResult.toDict])
      | simp_all
  · trivial

/-- C7 amended: every outcome of each interpreter branch, and every
immediate error of the dispatcher, produces one identical result shape —
the five keys `success`, `exit_code`, `stdout`, `stderr`, `error`, with
`error` null exactly on success — but no `duration` field. -/
theorem claim_C7_amended :
    (∀ (oc : ProcOutcome) (t : Nat),
       good_result_shape (execute_python_script oc t) ∧
       good_result_shape (execute_shell_script oc t) ∧
       good_result_shape (execute_windows_script oc t) ∧
       (execute_python_script oc t).toDict.lookup "duration" = Option.none) ∧
    (∀ (platform : String) (fs : List PurePath) (base script_path : PurePath)
       (t : Nat) (r : ScriptResult),
       execute_script platform fs base script_path t = ExecDecision.err r →
       good_result_shape r ∧ r.success = false) := by
  constructor
  · intro oc t
    cases oc with
    | exited c o e =>
      refine ⟨⟨rfl, ?_⟩, ⟨rfl, ?_⟩, ⟨rfl, ?_⟩, rfl⟩ <;>
        · by_cases h : c = 0 <;>
            simp [execute_python_script, execute_shell_script,
              execute_windows_script, h]
    | timedOut =>
      exact ⟨⟨rfl, by simp [execute_python_script]⟩,
             ⟨rfl, by simp [execute_shell_script]⟩,
             ⟨rfl, by simp [execute_windows_script]⟩, rfl⟩
    | raised m =>
      exact ⟨⟨rfl, by simp [execute_python_script]⟩,
             ⟨rfl, by simp [execute_shell_script]⟩,
             ⟨rfl, by simp [execute_windows_script]⟩, rfl⟩
  · intro platform fs base script_path t r h
    have hm := execute_script_err_shape platform fs base script_path t
    rw [h] at hm
    exact hm

/-- Witness for C7 amended: the Python branch's timeout result has the
common five-key shape, and so does the concrete `Script not found` error the
dispatcher returns for a missing `/app/x.py`. -/
theorem claim_C7_amended_witness :
    good_result_shape (execute_python_script ProcOutcome.timedOut 3) ∧
    good_result_shape
      { success := false, exit_code := -1, stdout := "",
        stderr := "Script not found: /app/x.py",
        error := Option.some "Script not found: /app/x.py" } :=
  ⟨(claim_C7_amended.1 ProcOutcome.timedOut 3).1,
   (claim_C7_amended.2 "linux" [] { absolute := true, parts := ["app"] }
      { absolute := false, parts := ["x.py"] } 9
      { success := false, exit_code := -1, stdout := "",
        stderr := "Script not found: /app/x.py",
        error := Option.some "Script not found: /app/x.py" } (by rfl)).1⟩

/-- Base directory `/srv/app` for the traversal counterexample. -/
def traversalBase : PurePath := { absolute := true, parts := ["srv", "app"] }

/-- The relative script path `../../etc/evil.py`, which resolves outside the
base directory. -/
def traversalScript : PurePath :=
  { absolute := false, parts := ["..", "..", "etc", "evil.py"] }

/-- A filesystem in which `/etc/evil.py` exists (and nothing under the base
directory does). -/
def traversalFs : List PurePath := [{ absolute := true, parts := ["etc", "evil.py"] }]

/-- C3 counterexample: the script path `../../etc/evil.py` resolves outside
the base directory `/srv/app`, yet the dispatcher spawns a Python process
for it — no containment check exists in `_execute_script`, which only
refuses non-existent joined paths. -/
theorem claim_C3_counterexample :
    spec_resolves_under_base traversalBase
      (script_full_path traversalBase traversalScript) = false ∧
    execute_script "linux" traversalFs traversalBase traversalScript 60 =
      ExecDecision.spawn ScriptKind.python
        (script_full_path traversalBase traversalScript) 60 := by
  constructor
  · decide
  · rfl

/-- C3 amended: the only path-based refusal the runner performs is an
existence check on the joined path `base / script_path`: when the resolved
joined path does not exist, the runner returns the `Script not found` error
result and no process is spawned.  No base-directory containment check is
performed, so an existing path escaping the base (via `..` components or an
absolute `script_path`) is executed (see the counterexample). -/
theorem claim_C3_amended (platform : String) (fs : List PurePath)
    (base script_path : PurePath) (t : Nat)
    (h : fs.contains (script_full_path base script_path).resolve = false) :
    execute_script platform fs base script_path t =
      ExecDecision.err
        { success := false, exit_code := -1, stdout := "",
          stderr := "Script not found: " ++ (script_full_path base script_path).render,
          error := Option.some
            ("Script not found: " ++ (script_full_path base script_path).render) } := by
  unfold execute_script
  rw [h]
  rfl

/-- Witness for C3 amended: with an empty filesystem, `/app / x.py` is
refused with the `Script not found` result. -/
theorem claim_C3_amended_witness :
    execute_script "linux" [] { absolute := true, parts := ["app"] }
      { absolute := false, parts := ["x.py"] } 30 =
      ExecDecision.err
        { success := false, exit_code := -1, stdout := "",
          stderr := "Script not found: /app/x.py",
          error := Option.some "Script not found: /app/x.py" } :=
  (claim_C3_amended "linux" [] { absolute := true, parts := ["app"] }
      { absolute := false, parts := ["x.py"] } 30 (by decide)).trans (by rfl)

/-- C1 counterexample: the per-job instance cap configured by
`JobScheduler.initialize` is `settings.max_concurrent_jobs = 10`, not 1, and
with one instance of a job already `Running` the gate admits a second
instance of the same job. -/
theorem claim_C1_counterexample :
    initialize_job_defaults.max_instances = 10 ∧
    ¬ (initialize_job_defaults.max_instances = 1) ∧
    can_start_instance initialize_job_defaults.max_instances 1 = true := by
  refine ⟨rfl, by decide, rfl⟩

/-- C1 amended: the per-job `max_instances` default is set to
`settings.max_concurrent_jobs` (10), so while one execution of a job is
`Running` a second execution of the same job is admitted; an attempt is
rejected exactly when 10 or more instances of that job are already
running. -/
theorem claim_C1_amended :
    initialize_job_defaults.max_instances = settings_max_concurrent_jobs ∧
    can_start_instance initialize_job_defaults.max_instances 1 = true ∧
    can_start_instance initialize_job_defaults.max_instances 10 = false ∧
    (∀ running : Nat,
      can_start_instance initialize_job_defaults.max_instances running =
        decide (running < 10)) :=
  ⟨rfl, rfl, rfl, fun running => rfl⟩

/-- C4 counterexample: supplying both a cron expression and an interval is
not refused — the cron kind silently wins and the job is registered. -/
theorem claim_C4_counterexample :
    select_trigger (Option.some "0 * * * *") (Option.some 60) Option.none =
      Except.ok (Trigger.cron "0 * * * *") ∧
    add_job [] "job_7" (Option.some "0 * * * *") (Option.some 60) Option.none =
      Except.ok [("job_7", Trigger.cron "0 * * * *")] := by
  constructor
  · rfl
  · rfl

/-- C4 amended: registration raises (and registers nothing) only in the
zero-kinds case — when the cron expression is falsy (absent or empty), the
interval is falsy (absent or 0) and no run date is given.  When more than
one kind is supplied there is no refusal: a truthy cron expression takes
precedence over everything, and otherwise a truthy interval takes
precedence over a run date. -/
theorem claim_C4_amended :
    (∀ (registry : List (String × Trigger)) (job_id : String)
       (c : Option String) (i : Option Nat) (d : Option Int),
       py_truthy_str c = false → py_truthy_nat i = false → d.isSome = false →
       add_job registry job_id c i d =
         Except.error "Must provide cron_expression, interval_seconds, or run_date") ∧
    (∀ (c : Option String) (i : Option Nat) (d : Option Int),
       py_truthy_str c = true →
       select_trigger c i d = cron_from_crontab (c.getD "")) ∧
    (∀ (c : Option String) (i : Option Nat) (d : Option Int),
       py_truthy_str c = false → py_truthy_nat i = true →
       select_trigger c i d = Except.ok (Trigger.interval (i.getD 0))) := by
  refine ⟨?_, ?_, ?_⟩
  · intro registry job_id c i d hc hi hd
    unfold add_job select_trigger
    simp [hc, hi, hd]
  · intro c i d hc
    unfold select_trigger
    simp [hc]
  · intro c i d hc hi
    unfold select_trigger
    simp [hc, hi]

/-- Witness for C4 amended: with no schedule kind at all, registration is
refused with the `ValueError` message and nothing is registered. -/
theorem claim_C4_amended_witness :
    add_job [] "job_9" Option.none Option.none Option.none =
      Except.error "Must provide cron_expression, interval_seconds, or run_date" :=
  claim_C4_amended.1 [] "job_9" Option.none Option.none Option.none
    (by decide) (by decide) (by decide)

/-- C8 counterexample: a second `add_job` with an already-registered job id
is accepted, and the existing entry is silently replaced, although the
caller never requested replacement (`replace_existing=True` is hard-coded
and is not a parameter of `JobScheduler.add_job`). -/
theorem claim_C8_counterexample :
    add_job [("job_1", Trigger.interval 30)] "job_1"
      (Option.some "0 * * * *") Option.none Option.none =
      Except.ok [("job_1", Trigger.cron "0 * * * *")] := by
  rfl

/-- C8 amended: a duplicate job id is never rejected: `JobScheduler.add_job`
passes `replace_existing=True` unconditionally, so whenever the schedule is
valid and the id is already registered, the existing entry is replaced and
registration succeeds; callers have no way to request anything else. -/
theorem claim_C8_amended (registry : List (String × Trigger)) (job_id : String)
    (c : Option String) (i : Option Nat) (d : Option Int) (tr : Trigger)
    (hdup : (registry.lookup job_id).isSome = true)
    (hsel : select_trigger c i d = Except.ok tr) :
    add_job registry job_id c i d =
      Except.ok (registry.map
        (fun p => if p.1 == job_id then (job_id, tr) else p)) := by
  unfold add_job
  rw [hsel]
  unfold apscheduler_add_job
  simp [hdup]

/-- Witness for C8 amended: replacing `job_1`'s interval trigger by a cron
trigger through a duplicate add. -/
theorem claim_C8_amended_witness :
    add_job [("job_1", Trigger.interval 30)] "job_1"
      (Option.some "*/5 * * * *") Option.none Option.none =
      Except.ok [("job_1", Trigger.cron "*/5 * * * *")] :=
  (claim_C8_amended [("job_1", Trigger.interval 30)] "job_1"
      (Option.some "*/5 * * * *") Option.none Option.none
      (Trigger.cron "*/5 * * * *") (by decide) (by rfl)).trans (by rfl)

/-- The runner result dictionary has no `duration` key, so `.get` on it
yields `None`. -/
theorem duration_key_absent (r : ScriptResult) :
    pyGetInt r.toDict "duration" = Option.none := rfl

/-- A store in which job 1 already has a `Running` execution row: with the
claim's per-job cap of 1, the gate is exhausted. -/
def busyStore : Store :=
  { jobs := [sampleJob],
    executions :=
      [{ id := 0, job_id := 1, status := JobStatus.running,
         started_at := Option.some 5, completed_at := Option.none,
         duration_seconds := Option.none, stdout := Option.none,
         stderr := Option.none, exit_code := Option.none,
         error_message := Option.none, hostname := Option.none,
         platform := Option.none }],
    nextExecId := 1 }

/-- A successful runner result. -/
def okResult : ScriptResult :=
  { success := true, exit_code := 0, stdout := "ok", stderr := "",
    error := Option.none }

/-- C5 counterexample: with job 1 already `Running` and a per-job cap of 1
the concurrency gate says reject, yet the execute-now endpoint proceeds
(returns 200 with a new execution) instead of refusing or skipping. -/
theorem claim_C5_counterexample :
    can_start_instance 1 (runningCount busyStore 1) = false ∧
    (api_execute_job busyStore 1 okResult 10 20).isOk = true := by
  constructor
  · decide
  · rfl

/-- C5 amended: the execute-now endpoint bypasses both the trigger and the
concurrency gate: for any existing job id — with no hypothesis about how
many executions are already `Running` or about any cap — it creates a
`Running` ledger row, invokes the runner, and applies exactly one terminal
transition with the result payload (`Success` iff the result succeeded,
`duration_seconds` left `None` because the runner result has no `duration`
key). -/
theorem claim_C5_amended (st : Store) (job_id : Nat) (result : ScriptResult)
    (t0 t1 : Nat) (job : Job)
    (hfind : st.jobs.find? (fun j => j.id == job_id) = Option.some job)
    (hfresh : ∀ e ∈ st.executions, e.id ≠ st.nextExecId) :
    api_execute_job st job_id result t0 t1 =
      Except.ok
        ({ id := st.nextExecId, job_id := job.id,
           status := if result.success then JobStatus.success else JobStatus.failed,
           started_at := Option.some t0, completed_at := Option.some t1,
           duration_seconds := Option.none,
           stdout := Option.some result.stdout,
           stderr := Option.some result.stderr,
           exit_code := Option.some result.exit_code,
           error_message := result.error,
           hostname := Option.none, platform := Option.none },
         { st with
             executions := st.executions ++
               [{ id := st.nextExecId, job_id := job.id,
                  status := if result.success then JobStatus.success else JobStatus.failed,
                  started_at := Option.some t0, completed_at := Option.some t1,
                  duration_seconds := Option.none,
                  stdout := Option.some result.stdout,
                  stderr := Option.some result.stderr,
                  exit_code := Option.some result.exit_code,
                  error_message := result.error,
                  hostname := Option.none, platform := Option.none }],
             nextExecId := st.nextExecId + 1 }) := by
  unfold api_execute_job
  rw [hfind]
  simp only [updateExecution, List.map_append]
  rw [map_update_of_fresh _ _ _ hfresh]
  simp [duration_key_absent]

/-- Witness for C5 amended, at the very store whose gate is exhausted: the
endpoint still records a second execution for job 1 and reports success. -/
theorem claim_C5_amended_witness :
    api_execute_job busyStore 1 okResult 10 20 =
      Except.ok
        ({ id := 1, job_id := 1, status := JobStatus.success,
           started_at := Option.some 10, completed_at := Option.some 20,
           duration_seconds := Option.none, stdout := Option.some "ok",
           stderr := Option.some "", exit_code := Option.some 0,
           error_message := Option.none, hostname := Option.none,
           platform := Option.none },
         { jobs := [sampleJob],
           executions :=
             [{ id := 0, job_id := 1, status := JobStatus.running,
                started_at := Option.some 5, completed_at := Option.none,
                duration_seconds := Option.none, stdout := Option.none,
                stderr := Option.none, exit_code := Option.none,
                error_message := Option.none, hostname := Option.none,
                platform := Option.none },
              { id := 1, job_id := 1, status := JobStatus.success,
                started_at := Option.some 10, completed_at := Option.some 20,
                duration_seconds := Option.none, stdout := Option.some "ok",
                stderr := Option.some "", exit_code := Option.some 0,
                error_message := Option.none, hostname := Option.none,
                platform := Option.none }],
           nextExecId := 2 }) :=
  (claim_C5_amended busyStore 1 okResult 10 20 sampleJob (by decide)
    (by decide)).trans (by rfl)

/-- A job with no cron expression (an interval or one-shot job as stored in
the database). -/
def intervalJob : Job :=
  { id := 2, name := "interval-backup", script_path := "scripts/backup.py",
    cron_expression := Option.none, enabled := true, timeout_seconds := 60 }

/-- Processing a job whose `cron_expression` is null leaves the loader state
unchanged: `add_job` raises (zero schedule kinds) and the `except` clause
skips the job. -/
theorem load_step_skips_none_cron (st : LoadState) (j : Job)
    (h : j.cron_expression = Option.none) : load_step st j = st := by
  unfold load_step add_job select_trigger
  rw [h]
  rfl

/-- C10: an enabled job with a null `cron_expression` is never scheduled —
loading a job list containing it produces exactly the state produced by the
list without it: the per-job handler catches the registration error, skips
the job, and the remaining jobs are still loaded. -/
theorem claim_C10 (registry : List (String × Trigger)) (pre post : List Job)
    (j : Job) (henabled : j.enabled = true)
    (hcron : j.cron_expression = Option.none) :
    load_jobs_from_database registry (pre ++ j :: post) =
      load_jobs_from_database registry (pre ++ post) := by
  unfold load_jobs_from_database
  rw [List.filter_append, List.filter_append, List.filter_cons]
  simp only [henabled, if_true]
  rw [List.foldl_append, List.foldl_append, List.foldl_cons,
    load_step_skips_none_cron _ _ hcron]

/-- Witness for C10: loading `[intervalJob, sampleJob]` equals loading
`[sampleJob]` alone — the cron-less job is skipped, the cron job still
loads. -/
theorem claim_C10_witness :
    load_jobs_from_database [] [intervalJob, sampleJob] =
      load_jobs_from_database [] [sampleJob] :=
  claim_C10 [] [] [sampleJob] intervalJob (by decide) (by decide)
